import Mathlib

set_option maxRecDepth 8000

/-!
Verification of the byteforge-aegis credential-lifecycle core: the token
lifecycle engine (`src/services/token_service.py`) and the signed webhook
delivery subsystem (`src/services/webhook_service.py`), shallowly embedded
in Lean 4.  The abstract token store (`db_manager`) and the external `Site`
record are not part of the core sources; their operations are modelled from
the design document's store interface (lookup-by-token, lookup-by-family,
create, mark-used, revoke-family, delete, delete-expired).
-/

namespace Aegis

/-! ## Bytes, UTF-8 and SHA-256 (the primitives behind `hashlib`/`hmac`) -/

/-- UTF-8 encoding of a single character, as `str.encode()` produces it. -/
def utf8Bytes (c : Char) : List Nat :=
  let n := c.toNat
  if n < 0x80 then [n]
  else if n < 0x800 then
    [0xC0 ||| (n >>> 6), 0x80 ||| (n &&& 0x3F)]
  else if n < 0x10000 then
    [0xE0 ||| (n >>> 12), 0x80 ||| ((n >>> 6) &&& 0x3F), 0x80 ||| (n &&& 0x3F)]
  else
    [0xF0 ||| (n >>> 18), 0x80 ||| ((n >>> 12) &&& 0x3F),
     0x80 ||| ((n >>> 6) &&& 0x3F), 0x80 ||| (n &&& 0x3F)]

/-- UTF-8 encoding of a string (Python `s.encode()`), as a list of bytes. -/
def strBytes (s : String) : List Nat :=
  (s.data.map utf8Bytes).flatten

/-- 32-bit right rotation. -/
def rotr (n x : Nat) : Nat :=
  ((x >>> n) ||| (x <<< (32 - n))) % 4294967296

/-- SHA-256 round constants (FIPS 180-4, written in decimal). -/
def sha256K : List Nat :=
  [1116352408, 1899447441, 3049323471, 3921009573, 961987163,
   1508970993, 2453635748, 2870763221, 3624381080, 310598401,
   607225278, 1426881987, 1925078388, 2162078206, 2614888103,
   3248222580, 3835390401, 4022224774, 264347078, 604807628,
   770255983, 1249150122, 1555081692, 1996064986, 2554220882,
   2821834349, 2952996808, 3210313671, 3336571891, 3584528711,
   113926993, 338241895, 666307205, 773529912, 1294757372,
   1396182291, 1695183700, 1986661051, 2177026350, 2456956037,
   2730485921, 2820302411, 3259730800, 3345764771, 3516065817,
   3600352804, 4094571909, 275423344, 430227734, 506948616,
   659060556, 883997877, 958139571, 1322822218, 1537002063,
   1747873779, 1955562222, 2024104815, 2227730452, 2361852424,
   2428436474, 2756734187, 3204031479, 3329325298]

/-- SHA-256 initial hash value (FIPS 180-4, written in decimal). -/
def sha256H0 : List Nat :=
  [1779033703, 3144134277, 1013904242, 2773480762,
   1359893119, 2600822924, 528734635, 1541459225]

/-- Big-endian grouping of bytes into 32-bit words. -/
def bytesToWords : List Nat → List Nat
  | b0 :: b1 :: b2 :: b3 :: rest =>
      (((b0 * 256 + b1) * 256 + b2) * 256 + b3) :: bytesToWords rest
  | _ => []

/-- Big-endian 8-byte encoding of a (64-bit) length. -/
def lenBytes64 (n : Nat) : List Nat :=
  [(n >>> 56) % 256, (n >>> 48) % 256, (n >>> 40) % 256, (n >>> 32) % 256,
   (n >>> 24) % 256, (n >>> 16) % 256, (n >>> 8) % 256, n % 256]

/-- SHA-256 message padding: a 0x80 byte, zeros to 56 mod 64, then the
bit length in 64-bit big-endian. -/
def sha256Pad (m : List Nat) : List Nat :=
  let l := m.length
  let k := (64 + 55 - l % 64) % 64
  m ++ [0x80] ++ List.replicate k 0 ++ lenBytes64 (8 * l)

def smallSigma0 (x : Nat) : Nat := rotr 7 x ^^^ rotr 18 x ^^^ (x >>> 3)
def smallSigma1 (x : Nat) : Nat := rotr 17 x ^^^ rotr 19 x ^^^ (x >>> 10)
def bigSigma0 (x : Nat) : Nat := rotr 2 x ^^^ rotr 13 x ^^^ rotr 22 x
def bigSigma1 (x : Nat) : Nat := rotr 6 x ^^^ rotr 11 x ^^^ rotr 25 x

/-- Extend 16 message-schedule words to 64. -/
def extendW (ws : List Nat) : List Nat :=
  (List.range 48).foldl
    (fun w i =>
      let t := i + 16
      let s0 := smallSigma0 (w.getD (t - 15) 0)
      let s1 := smallSigma1 (w.getD (t - 2) 0)
      w ++ [(w.getD (t - 16) 0 + s0 + w.getD (t - 7) 0 + s1) % 4294967296])
    ws

/-- One SHA-256 compression round on the 8-word working state. -/
def sha256Round (st : List Nat) (kw : Nat × Nat) : List Nat :=
  match st with
  | [a, b, c, d, e, f, g, hh] =>
      let ch := (e &&& f) ^^^ ((e ^^^ 0xffffffff) &&& g)
      let maj := (a &&& b) ^^^ (a &&& c) ^^^ (b &&& c)
      let t1 := (hh + bigSigma1 e + ch + kw.1 + kw.2) % 4294967296
      let t2 := (bigSigma0 a + maj) % 4294967296
      [(t1 + t2) % 4294967296, a, b, c, (d + t1) % 4294967296, e, f, g]
  | s => s

/-- Compress one 16-word block into the running hash value. -/
def sha256Compress (hv : List Nat) (block : List Nat) : List Nat :=
  let w := extendW block
  let fin := (sha256K.zip w).foldl sha256Round hv
  List.zipWith (fun x y => (x + y) % 4294967296) hv fin

/-- Process the padded word stream, 16 words per block (fuel = word count). -/
def sha256Blocks : Nat → List Nat → List Nat → List Nat
  | 0, _, hv => hv
  | _ + 1, [], hv => hv
  | fuel + 1, ws, hv =>
      sha256Blocks fuel (ws.drop 16) (sha256Compress hv (ws.take 16))

/-- SHA-256 of a byte list, as a list of 32 bytes. -/
def sha256 (m : List Nat) : List Nat :=
  let ws := bytesToWords (sha256Pad m)
  let hv := sha256Blocks ws.length ws sha256H0
  (hv.map (fun w => [(w >>> 24) % 256, (w >>> 16) % 256, (w >>> 8) % 256, w % 256])).flatten

/-- Lower-case hex digit. -/
def hexChar (n : Nat) : Char :=
  if n < 10 then Char.ofNat (48 + n) else Char.ofNat (87 + n)

/-- Hex encoding of a byte list (Python `.hexdigest()`). -/
def hexDigest (bs : List Nat) : String :=
  ⟨(bs.map (fun b => [hexChar (b / 16), hexChar (b % 16)])).flatten⟩

/-- HMAC-SHA256 (`hmac.new(key, msg, hashlib.sha256).digest()`): key hashed
if longer than the 64-byte block, zero-padded, then the nested
ipad/opad construction. -/
def hmacSha256 (key msg : List Nat) : List Nat :=
  let k0 := if 64 < key.length then sha256 key else key
  let k := k0 ++ List.replicate (64 - k0.length) 0
  let ipad := k.map (fun b => b ^^^ 0x36)
  let opad := k.map (fun b => b ^^^ 0x5c)
  sha256 (opad ++ sha256 (ipad ++ msg))

/-- Hex HMAC-SHA256 of UTF-8-encoded strings, i.e.
`hmac.new(secret.encode(), message.encode(), hashlib.sha256).hexdigest()`. -/
def hmacSha256Hex (secret message : String) : String :=
  hexDigest (hmacSha256 (strBytes secret) (strBytes message))

/-- SHA-256 sanity: the NIST vector for the empty message. -/
theorem sha256_empty_vector :
    hexDigest (sha256 []) =
      "e3b0c44298fc1c149afbf4c8996fb92427ae41e4649b934ca495991b7852b855" := by
  decide

/-- SHA-256 sanity: the NIST vector for "abc". -/
theorem sha256_abc_vector :
    hexDigest (sha256 (strBytes "abc")) =
      "ba7816bf8f01cfea414140de5dae2223b00361a396177a9cb410ff61f20015ad" := by
  decide

/-- HMAC-SHA256 sanity: the classic short-key test vector. -/
theorem hmac_sha256_short_key_vector :
    hmacSha256Hex "key" "The quick brown fox jumps over the lazy dog" =
      "f7bc83f430538424b13298e6aa6fb143ef4d59a14946175997479dbc2d1a3cd8" := by
  decide

/-- HMAC-SHA256 sanity: a key longer than the 64-byte block is hashed first. -/
theorem hmac_sha256_long_key_vector :
    hmacSha256Hex
      "kkkkkkkkkkkkkkkkkkkkkkkkkkkkkkkkkkkkkkkkkkkkkkkkkkkkkkkkkkkkkkkkkkkkkkkkkkkkkkkkkkkkkkkkkkkkkkkkkkkkkkkkkkkkkkkkkkkkkkkkkkkkkkkkkkk"
      "Test Using Larger Than Block-Size Key" =
      "46ac33ede86549300c0bf2805f311de06f51067bcac093c959fafa72295111ae" := by
  decide

/-! ## Token data model (`src/models`, unix-second timestamps as `Nat`) -/

/-- Auth token model (`byteforge_aegis_models.AuthToken`, fields as used by
`token_service.py`). -/
structure AuthToken where
  token : String
  site_id : Nat
  user_id : Nat
  expires_at : Nat
  created_at : Nat
deriving DecidableEq, Repr

/-- Refresh token model (`models/refresh_token.py`). -/
structure RefreshToken where
  token : String
  site_id : Nat
  user_id : Nat
  family_id : String
  expires_at : Nat
  created_at : Nat
  used_at : Option Nat
  revoked : Bool
deriving DecidableEq, Repr

/-- Result of validating and rotating a refresh token
(`models/refresh_token_result.py`). -/
structure RefreshTokenResult where
  user_id : Nat
  site_id : Nat
  new_refresh_token : Option RefreshToken
deriving DecidableEq, Repr

/-- Email verification token (fields as used by `token_service.py`). -/
structure EmailVerificationToken where
  token : String
  site_id : Nat
  user_id : Nat
  expires_at : Nat
  created_at : Nat
deriving DecidableEq, Repr

/-- Password reset token (fields as used by `token_service.py`): carries a
terminal `used` flag instead of being deleted on consumption. -/
structure PasswordResetToken where
  token : String
  site_id : Nat
  user_id : Nat
  expires_at : Nat
  created_at : Nat
  used : Bool
deriving DecidableEq, Repr

/-- Email change request (fields as used by `token_service.py`): carries the
pending new email value. -/
structure EmailChangeRequest where
  token : String
  site_id : Nat
  user_id : Nat
  new_email : String
  expires_at : Nat
  created_at : Nat
deriving DecidableEq, Repr

/-- Configuration values read by the token service (`config`, external
read-only per the design: lifetimes per kind, rotation on/off, grace
period). -/
structure Config where
  AUTH_TOKEN_EXPIRATION : Nat
  REFRESH_TOKEN_EXPIRATION : Nat
  REFRESH_TOKEN_ROTATION : Bool
  REFRESH_TOKEN_GRACE_PERIOD : Nat
  EMAIL_VERIFICATION_EXPIRATION : Nat
  PASSWORD_RESET_EXPIRATION : Nat
  EMAIL_CHANGE_EXPIRATION : Nat
deriving DecidableEq, Repr

/-! ## Token store operations (`db_manager`)

Modelled from the spec: the core treats storage as an abstract transactional
store offering lookup-by-token, lookup-by-family, create, mark-used, revoke,
revoke-family, delete and delete-expired, one family of operations per token
kind; each store is a row sequence in insertion order, insertion order being
the monotonically increasing creation sequence that determines the "latest"
token of a family. -/

/-- Modelled from the spec: `db_manager.find_auth_token_by_token` —
lookup-by-token on the auth-token store. -/
def find_auth_token_by_token (store : List AuthToken) (token : String) :
    Option AuthToken :=
  store.find? (fun t => t.token == token)

/-- Modelled from the spec: `db_manager.find_refresh_token_by_token` —
lookup-by-token on the refresh-token store. -/
def find_refresh_token_by_token (store : List RefreshToken) (token : String) :
    Option RefreshToken :=
  store.find? (fun t => t.token == token)

/-- Modelled from the spec: `db_manager.find_latest_refresh_token_in_family` —
the latest token of the family in the store's well-defined creation order. -/
def find_latest_refresh_token_in_family (store : List RefreshToken)
    (family_id : String) : Option RefreshToken :=
  (store.filter (fun t => t.family_id == family_id)).getLast?

/-- Modelled from the spec: `db_manager.mark_refresh_token_used` — set
`used_at` on the row with the given token string. -/
def mark_refresh_token_used (store : List RefreshToken) (token : String)
    (when : Nat) : List RefreshToken :=
  store.map (fun t => if t.token == token then { t with used_at := some when } else t)

/-- Modelled from the spec: `db_manager.revoke_refresh_token_family` — set
`revoked` on every row of the family. -/
def revoke_refresh_token_family (store : List RefreshToken)
    (family_id : String) : List RefreshToken :=
  store.map (fun t => if t.family_id == family_id then { t with revoked := true } else t)

/-- Modelled from the spec: `db_manager.find_email_verification_token`. -/
def find_email_verification_token (store : List EmailVerificationToken)
    (token : String) : Option EmailVerificationToken :=
  store.find? (fun t => t.token == token)

/-- Modelled from the spec: `db_manager.delete_email_verification_token` —
remove the row with the given token string. -/
def delete_email_verification_token (store : List EmailVerificationToken)
    (token : String) : List EmailVerificationToken :=
  store.filter (fun t => t.token != token)

/-- Modelled from the spec: `db_manager.find_password_reset_token`. -/
def find_password_reset_token (store : List PasswordResetToken)
    (token : String) : Option PasswordResetToken :=
  store.find? (fun t => t.token == token)

/-- Modelled from the spec: `db_manager.mark_password_reset_token_used` — set
the terminal `used` flag on the row with the given token string. -/
def mark_password_reset_token_used (store : List PasswordResetToken)
    (token : String) : List PasswordResetToken :=
  store.map (fun t => if t.token == token then { t with used := true } else t)

/-- Modelled from the spec: `db_manager.find_email_change_request`. -/
def find_email_change_request (store : List EmailChangeRequest)
    (token : String) : Option EmailChangeRequest :=
  store.find? (fun t => t.token == token)

/-- Modelled from the spec: `db_manager.delete_email_change_request` — remove
the row with the given token string. -/
def delete_email_change_request (store : List EmailChangeRequest)
    (token : String) : List EmailChangeRequest :=
  store.filter (fun t => t.token != token)

/-- Modelled from the spec: `db_manager.delete_expired_auth_tokens` — delete
all rows whose `expires_at` has passed the given time. -/
def delete_expired_auth_tokens (store : List AuthToken) (current_time : Nat) :
    List AuthToken :=
  store.filter (fun t => !(t.expires_at < current_time))

/-- Modelled from the spec: `db_manager.delete_expired_refresh_tokens`. -/
def delete_expired_refresh_tokens (store : List RefreshToken)
    (current_time : Nat) : List RefreshToken :=
  store.filter (fun t => !(t.expires_at < current_time))

/-- Modelled from the spec:
`db_manager.delete_expired_email_verification_tokens`. -/
def delete_expired_email_verification_tokens
    (store : List EmailVerificationToken) (current_time : Nat) :
    List EmailVerificationToken :=
  store.filter (fun t => !(t.expires_at < current_time))

/-- Modelled from the spec: `db_manager.delete_expired_password_reset_tokens`
— the expiry sweep "deletes all rows, across all five kinds, whose
`expires_at` has passed now". -/
def delete_expired_password_reset_tokens (store : List PasswordResetToken)
    (current_time : Nat) : List PasswordResetToken :=
  store.filter (fun t => !(t.expires_at < current_time))

/-- Modelled from the spec:
`db_manager.delete_expired_email_change_requests`. -/
def delete_expired_email_change_requests (store : List EmailChangeRequest)
    (current_time : Nat) : List EmailChangeRequest :=
  store.filter (fun t => !(t.expires_at < current_time))

/-- The five token stores the lifecycle engine mutates. -/
structure Stores where
  auth_tokens : List AuthToken
  refresh_tokens : List RefreshToken
  email_verification_tokens : List EmailVerificationToken
  password_reset_tokens : List PasswordResetToken
  email_change_requests : List EmailChangeRequest
deriving DecidableEq, Repr

/-! ## Token lifecycle engine (`src/services/token_service.py`)

Randomness (`generate_token`) is modelled by passing the fresh random
string(s) as explicit arguments; the clock (`int(time.time())`) by passing
`now`.  Operations return their result together with the updated store. -/

/-- `TokenService.create_auth_token`: build and persist an auth token whose
expiry is `now + AUTH_TOKEN_EXPIRATION`. -/
def create_auth_token (config : Config) (store : List AuthToken) (now : Nat)
    (token_str : String) (site_id user_id : Nat) :
    AuthToken × List AuthToken :=
  let auth_token : AuthToken :=
    { token := token_str, site_id := site_id, user_id := user_id,
      expires_at := now + config.AUTH_TOKEN_EXPIRATION, created_at := now }
  (auth_token, store ++ [auth_token])

/-- `TokenService.validate_auth_token`: `None` when missing or
`expires_at < now`; otherwise the owning `user_id`, with no side effect. -/
def validate_auth_token (store : List AuthToken) (now : Nat) (token : String) :
    Option Nat :=
  match find_auth_token_by_token store token with
  | none => none
  | some auth_token =>
      if auth_token.expires_at < now then none
      else some auth_token.user_id

/-- `TokenService.create_refresh_token`: build and persist a refresh token;
a fresh `family_id` (the `family_fresh` argument, standing for the second
`generate_token()` call) is used when none is supplied. -/
def create_refresh_token (config : Config) (store : List RefreshToken)
    (now : Nat) (token_str family_fresh : String) (site_id user_id : Nat)
    (family_id : Option String) : RefreshToken × List RefreshToken :=
  let fam := family_id.getD family_fresh
  let refresh_token : RefreshToken :=
    { token := token_str, site_id := site_id, user_id := user_id,
      family_id := fam, expires_at := now + config.REFRESH_TOKEN_EXPIRATION,
      created_at := now, used_at := none, revoked := false }
  (refresh_token, store ++ [refresh_token])

/-- Outcome of `validate_and_rotate_refresh_token`: `invalid` is the Python
`None` return, `reuseDetected` the raised
`ValueError("Refresh token reuse detected - all sessions revoked")`. -/
inductive RotateOutcome where
  | invalid
  | reuseDetected
  | ok (result : RefreshTokenResult)
deriving DecidableEq, Repr

/-- `TokenService.validate_and_rotate_refresh_token`, returning the outcome
together with the updated refresh-token store.  `fresh` stands for the
random string of the `generate_token()` call inside the nested
`create_refresh_token`. -/
def validate_and_rotate_refresh_token (config : Config)
    (store : List RefreshToken) (now : Nat) (fresh : String)
    (token : String) : RotateOutcome × List RefreshToken :=
  match find_refresh_token_by_token store token with
  | none => (.invalid, store)
  | some refresh_token =>
    if refresh_token.revoked then (.invalid, store)
    else if refresh_token.expires_at < now then (.invalid, store)
    else if config.REFRESH_TOKEN_ROTATION then
      match refresh_token.used_at with
      | some used_at =>
        let grace_period_end := used_at + config.REFRESH_TOKEN_GRACE_PERIOD
        if now ≤ grace_period_end then
          match find_latest_refresh_token_in_family store refresh_token.family_id with
          | some latest =>
            if latest.token != refresh_token.token then
              (.ok { user_id := latest.user_id, site_id := latest.site_id,
                     new_refresh_token := some latest }, store)
            else
              (.ok { user_id := refresh_token.user_id,
                     site_id := refresh_token.site_id,
                     new_refresh_token := none }, store)
          | none =>
              (.ok { user_id := refresh_token.user_id,
                     site_id := refresh_token.site_id,
                     new_refresh_token := none }, store)
        else
          (.reuseDetected, revoke_refresh_token_family store refresh_token.family_id)
      | none =>
        let marked := mark_refresh_token_used store token now
        let created := create_refresh_token config marked now fresh fresh
          refresh_token.site_id refresh_token.user_id (some refresh_token.family_id)
        (.ok { user_id := refresh_token.user_id,
               site_id := refresh_token.site_id,
               new_refresh_token := some created.1 }, created.2)
    else
      (.ok { user_id := refresh_token.user_id,
             site_id := refresh_token.site_id,
             new_refresh_token := none }, store)

/-- `TokenService.check_email_verification_token`: non-destructive check. -/
def check_email_verification_token (store : List EmailVerificationToken)
    (now : Nat) (token : String) : Option Nat :=
  match find_email_verification_token store token with
  | none => none
  | some email_token =>
      if email_token.expires_at < now then none
      else some email_token.user_id

/-- `TokenService.validate_email_verification_token`: destructive check —
the row is deleted on success (one-time use). -/
def validate_email_verification_token (store : List EmailVerificationToken)
    (now : Nat) (token : String) :
    Option Nat × List EmailVerificationToken :=
  match find_email_verification_token store token with
  | none => (none, store)
  | some email_token =>
      if email_token.expires_at < now then (none, store)
      else (some email_token.user_id, delete_email_verification_token store token)

/-- `TokenService.validate_password_reset_token`: fails when missing, already
`used`, or expired; on success marks the row `used` (never deletes it). -/
def validate_password_reset_token (store : List PasswordResetToken)
    (now : Nat) (token : String) : Option Nat × List PasswordResetToken :=
  match find_password_reset_token store token with
  | none => (none, store)
  | some reset_token =>
      if reset_token.used || reset_token.expires_at < now then (none, store)
      else (some reset_token.user_id, mark_password_reset_token_used store token)

/-- `TokenService.validate_email_change_token`: fails when missing or
expired; on success deletes the row and returns the request. -/
def validate_email_change_token (store : List EmailChangeRequest)
    (now : Nat) (token : String) :
    Option EmailChangeRequest × List EmailChangeRequest :=
  match find_email_change_request store token with
  | none => (none, store)
  | some change_request =>
      if change_request.expires_at < now then (none, store)
      else (some change_request, delete_email_change_request store token)

/-- `TokenService.cleanup_expired_tokens`: the periodic expiry sweep over
all five token kinds. -/
def cleanup_expired_tokens (stores : Stores) (now : Nat) : Stores :=
  { auth_tokens := delete_expired_auth_tokens stores.auth_tokens now,
    refresh_tokens := delete_expired_refresh_tokens stores.refresh_tokens now,
    email_verification_tokens :=
      delete_expired_email_verification_tokens stores.email_verification_tokens now,
    password_reset_tokens :=
      delete_expired_password_reset_tokens stores.password_reset_tokens now,
    email_change_requests :=
      delete_expired_email_change_requests stores.email_change_requests now }

/-! ## Webhook delivery subsystem (`src/services/webhook_service.py`) -/

/-- Modelled from the spec: the external `Site` record — `webhook_url` and
`webhook_secret` are nullable; delivery is a no-op unless both are set. -/
structure Site where
  id : Nat
  webhook_url : Option String
  webhook_secret : Option String
deriving DecidableEq, Repr

/-- Webhook payload (`models/webhook_payload.py`); transient, signed and
serialized into `WebhookEvent.payload`. -/
structure WebhookPayload where
  event_type : String
  site_id : Nat
  user_id : Nat
  email : String
  aegis_role : String
  timestamp : Nat
deriving DecidableEq, Repr

/-- Webhook delivery audit record (`models/webhook_event.py`). -/
structure WebhookEvent where
  id : Nat
  site_id : Nat
  event_type : String
  payload : String
  response_status : Option Nat
  response_body : Option String
  success : Bool
  created_at : Nat
deriving DecidableEq, Repr

/-- Python truthiness of an optional string: `None` and `""` are falsy. -/
def optStrFalsy : Option String → Bool
  | none => true
  | some s => s.isEmpty

/-- JSON escaping of one character as `json.dumps` (default `ensure_ascii`)
produces it: the two mandatory escapes, the control-character shorthands,
`\u00XX` for other control characters and `\uXXXX` (with surrogate pairs)
beyond ASCII. -/
def jsonEscapeChar (c : Char) : List Char :=
  let n := c.toNat
  if c = '"' then ['\\', '"']
  else if c = '\\' then ['\\', '\\']
  else if c = '\n' then ['\\', 'n']
  else if c = '\t' then ['\\', 't']
  else if c = '\r' then ['\\', 'r']
  else if n = 8 then ['\\', 'b']
  else if n = 12 then ['\\', 'f']
  else if n < 0x20 ∨ 0x7F ≤ n then
    if n < 0x10000 then
      '\\' :: 'u' :: [hexChar ((n >>> 12) % 16), hexChar ((n >>> 8) % 16),
        hexChar ((n >>> 4) % 16), hexChar (n % 16)]
    else
      let m := n - 0x10000
      let hi := 0xD800 + (m >>> 10)
      let lo := 0xDC00 + (m &&& 0x3FF)
      ['\\', 'u', hexChar ((hi >>> 12) % 16), hexChar ((hi >>> 8) % 16),
       hexChar ((hi >>> 4) % 16), hexChar (hi % 16),
       '\\', 'u', hexChar ((lo >>> 12) % 16), hexChar ((lo >>> 8) % 16),
       hexChar ((lo >>> 4) % 16), hexChar (lo % 16)]
  else [c]

/-- A JSON string literal for `s`. -/
def jsonStr (s : String) : String :=
  ⟨'"' :: (s.data.map jsonEscapeChar).flatten ++ ['"']⟩

/-- `json.dumps(payload.to_dict(), separators=(',', ':'))`: compact
serialization in the dict's insertion key order. -/
def payloadJson (payload : WebhookPayload) : String :=
  "\x7b\"event_type\":" ++ jsonStr payload.event_type ++
  ",\"site_id\":" ++ toString payload.site_id ++
  ",\"user_id\":" ++ toString payload.user_id ++
  ",\"email\":" ++ jsonStr payload.email ++
  ",\"aegis_role\":" ++ jsonStr payload.aegis_role ++
  ",\"timestamp\":" ++ toString payload.timestamp ++ "\x7d"

/-- `WebhookService.compute_signature`: hex HMAC-SHA256, keyed by the site
secret, over the literal message `"{timestamp}.{payload_json}"`. -/
def compute_signature (secret : String) (timestamp : Nat)
    (payload_json : String) : String :=
  let message := toString timestamp ++ "." ++ payload_json
  hexDigest (hmacSha256 (strBytes secret) (strBytes message))

/-- The outcome of the `requests.post` call, supplied as an oracle: either a
response (status code and body text) or a network-level
`RequestException`. -/
inductive HttpOutcome where
  | response (status : Nat) (body : String)
  | networkError (message : String)
deriving DecidableEq, Repr

/-- The outbound POST request a delivery performs (URL, signed body and the
signature headers). -/
structure HttpRequest where
  url : String
  body : String
  signature_header : String
  event_header : String
  timestamp_header : String
deriving DecidableEq, Repr

/-- Python `s[:1000]`-style truncation (first `n` characters). -/
def strTruncate (s : String) (n : Nat) : String :=
  ⟨s.data.take n⟩

/-- `WebhookService._deliver_webhook`: serialize and sign the payload, POST
it (outcome supplied by the `http` oracle; a `RequestException` is caught,
leaving no status and a truncated error text), and append exactly one audit
row whose `success` flag derives from a 2xx status and whose recorded body
is truncated to 1000 characters. -/
def deliver_webhook (site : Site) (payload : WebhookPayload)
    (http : HttpOutcome) (now : Nat) (events : List WebhookEvent) :
    WebhookEvent × List WebhookEvent :=
  let payload_json := payloadJson payload
  let outcome :=
    match http with
    | .response status body =>
        (some status, some (strTruncate body 1000),
         decide (200 ≤ status) && decide (status < 300))
    | .networkError message =>
        (none, some (strTruncate message 1000), false)
  let event : WebhookEvent :=
    { id := 0, site_id := site.id, event_type := payload.event_type,
      payload := payload_json, response_status := outcome.1,
      response_body := outcome.2.1, success := outcome.2.2,
      created_at := now }
  (event, events ++ [event])

/-- `WebhookService.send_webhook`: a no-op unless the site has both a
webhook URL and secret; otherwise hands off to `deliver_webhook` and
returns the POST request performed.  `none` in the first component means no
network call was made. -/
def send_webhook (site : Site) (payload : WebhookPayload)
    (http : HttpOutcome) (now : Nat) (events : List WebhookEvent) :
    Option HttpRequest × List WebhookEvent :=
  if optStrFalsy site.webhook_url || optStrFalsy site.webhook_secret then
    (none, events)
  else
    let payload_json := payloadJson payload
    let signature :=
      compute_signature (site.webhook_secret.getD "") payload.timestamp payload_json
    let request : HttpRequest :=
      { url := site.webhook_url.getD "", body := payload_json,
        signature_header := "sha256=" ++ signature,
        event_header := payload.event_type,
        timestamp_header := toString payload.timestamp }
    (some request, (deliver_webhook site payload http now events).2)

/-! ## Sample data for witnesses -/

/-- A sample configuration: rotation enabled, 10-second grace period. -/
def sampleConfig : Config :=
  { AUTH_TOKEN_EXPIRATION := 3600, REFRESH_TOKEN_EXPIRATION := 86400,
    REFRESH_TOKEN_ROTATION := true, REFRESH_TOKEN_GRACE_PERIOD := 10,
    EMAIL_VERIFICATION_EXPIRATION := 600, PASSWORD_RESET_EXPIRATION := 900,
    EMAIL_CHANGE_EXPIRATION := 900 }

/-- A sample rotated refresh token: family "F", used at t = 100. -/
def sampleUsedToken : RefreshToken :=
  { token := "A", site_id := 1, user_id := 7, family_id := "F",
    expires_at := 1000, created_at := 50, used_at := some 100,
    revoked := false }

/-- The successor of `sampleUsedToken` in family "F". -/
def sampleSuccessorToken : RefreshToken :=
  { token := "B", site_id := 1, user_id := 7, family_id := "F",
    expires_at := 1050, created_at := 100, used_at := none,
    revoked := false }

/-- A sample fully configured site. -/
def sampleSite : Site :=
  { id := 3, webhook_url := some "https://cb.example",
    webhook_secret := some "sec" }

/-- A sample site with no webhook URL configured. -/
def sampleSiteNoUrl : Site :=
  { id := 1, webhook_url := none, webhook_secret := some "s" }

/-- A sample site with an empty webhook secret. -/
def sampleSiteEmptySecret : Site :=
  { id := 1, webhook_url := some "https://cb.example",
    webhook_secret := some "" }

/-- A sample webhook payload. -/
def samplePayload : WebhookPayload :=
  { event_type := "user.verified", site_id := 3, user_id := 7,
    email := "u@example.com", aegis_role := "user", timestamp := 1700000000 }

/-! ## Helper lemmas -/

/-- Finding by token after filtering that token out always fails. -/
theorem find?_token_filter_ne {α : Type} (tok : α → String) (s : List α)
    (t : String) :
    (s.filter (fun x => tok x != t)).find? (fun x => tok x == t) = none := by
  rw [List.find?_eq_none]
  intro x hx
  have hmem := List.of_mem_filter hx
  simp only [bne_iff_ne, ne_eq] at hmem
  simp only [beq_iff_eq]
  exact hmem

/-- After `revoke_refresh_token_family`, every row of that family is
revoked. -/
theorem revoke_family_mem_revoked (store : List RefreshToken) (fam : String) :
    ∀ x ∈ revoke_refresh_token_family store fam,
      x.family_id = fam → x.revoked = true := by
  intro x hx hfam
  unfold revoke_refresh_token_family at hx
  rcases List.mem_map.mp hx with ⟨y, hy, hxy⟩
  by_cases hyf : (y.family_id == fam) = true
  · rw [if_pos hyf] at hxy
    rw [← hxy]
  · rw [if_neg hyf] at hxy
    rw [← hxy] at hfam
    exact absurd (beq_iff_eq.mpr hfam) hyf

/-- A revoked refresh token always yields the plain invalid result. -/
theorem validate_rotate_revoked_invalid (config : Config)
    (store : List RefreshToken) (now : Nat) (fresh token : String)
    (tk : RefreshToken)
    (hf : find_refresh_token_by_token store token = some tk)
    (hrev : tk.revoked = true) :
    validate_and_rotate_refresh_token config store now fresh token =
      (.invalid, store) := by
  unfold validate_and_rotate_refresh_token
  rw [hf]
  simp [hrev]

/-- Rotating a freshly created (unused, unrevoked) token that is unique in
the store takes the normal rotation path: mark it used and append the
successor. -/
theorem rotate_fresh_token (config : Config) (s0 : List RefreshToken)
    (rt0 : RefreshToken) (t1 : Nat) (tok1 : String)
    (huniq : ∀ x ∈ s0, x.token ≠ rt0.token)
    (hrev : rt0.revoked = false) (hused : rt0.used_at = none)
    (hrot : config.REFRESH_TOKEN_ROTATION = true)
    (hexp : ¬ rt0.expires_at < t1) :
    validate_and_rotate_refresh_token config (s0 ++ [rt0]) t1 tok1 rt0.token =
      (.ok { user_id := rt0.user_id, site_id := rt0.site_id,
             new_refresh_token := some
               { token := tok1, site_id := rt0.site_id, user_id := rt0.user_id,
                 family_id := rt0.family_id,
                 expires_at := t1 + config.REFRESH_TOKEN_EXPIRATION,
                 created_at := t1, used_at := none, revoked := false } },
       mark_refresh_token_used (s0 ++ [rt0]) rt0.token t1 ++
         [{ token := tok1, site_id := rt0.site_id, user_id := rt0.user_id,
            family_id := rt0.family_id,
            expires_at := t1 + config.REFRESH_TOKEN_EXPIRATION,
            created_at := t1, used_at := none, revoked := false }]) := by
  have hfind : find_refresh_token_by_token (s0 ++ [rt0]) rt0.token = some rt0 := by
    unfold find_refresh_token_by_token
    rw [List.find?_append]
    have h0 : s0.find? (fun t => t.token == rt0.token) = none :=
      List.find?_eq_none.mpr (fun x hx => by simpa using huniq x hx)
    rw [h0]
    simp [List.find?]
  unfold validate_and_rotate_refresh_token
  rw [hfind]
  simp [hrev, hexp, hrot, hused, create_refresh_token]

/-- Looking up the rotated token after mark-used + append finds it with its
`used_at` set. -/
theorem find_after_mark_and_append (s0 : List RefreshToken)
    (rt0 newTok : RefreshToken) (t1 : Nat)
    (huniq : ∀ x ∈ s0, x.token ≠ rt0.token) :
    find_refresh_token_by_token
      (mark_refresh_token_used (s0 ++ [rt0]) rt0.token t1 ++ [newTok])
      rt0.token = some { rt0 with used_at := some t1 } := by
  unfold find_refresh_token_by_token mark_refresh_token_used
  rw [List.map_append, List.append_assoc, List.find?_append]
  have h0 : ((s0.map fun t =>
      if t.token == rt0.token then { t with used_at := some t1 } else t).find?
      (fun t => t.token == rt0.token)) = none := by
    rw [List.find?_eq_none]
    intro x hx
    rcases List.mem_map.mp hx with ⟨y, hy, hxy⟩
    have hyt : y.token ≠ rt0.token := huniq y hy
    have hxt : x.token = y.token := by
      rw [← hxy]
      rw [if_neg (by simpa using hyt)]
    simp [hxt, hyt]
  rw [h0]
  simp [List.find?]

/-- Marking a password-reset token used commutes with lookup: the found row
is the marked one. -/
theorem find_password_reset_after_mark (store : List PasswordResetToken)
    (token : String) :
    find_password_reset_token (mark_password_reset_token_used store token)
      token =
      (find_password_reset_token store token).map
        (fun t => if t.token == token then { t with used := true } else t) := by
  unfold find_password_reset_token mark_password_reset_token_used
  rw [List.find?_map]
  have hp : ((fun t : PasswordResetToken => t.token == token) ∘ fun t =>
      if t.token == token then { t with used := true } else t) =
      (fun t : PasswordResetToken => t.token == token) := by
    funext t
    by_cases hc : (t.token == token) = true
    · simp only [Function.comp_apply, if_pos hc]
    · simp only [Function.comp_apply, if_neg hc]
  rw [hp]

/-- The `[:1000]` truncation bounds the character count by 1000. -/
theorem strTruncate_length_le (s : String) (n : Nat) :
    (strTruncate s n).length ≤ n := by
  show (s.data.take n).length ≤ n
  exact List.length_take_le n s.data

/-! ## Claim theorems -/

/-- C4: for every token of any of the five kinds, if the current time is
strictly greater than the token's `expires_at`, the corresponding validation
operation (`validate_auth_token`, `validate_and_rotate_refresh_token`,
`check_email_verification_token` / `validate_email_verification_token`,
`validate_password_reset_token`, `validate_email_change_token`) fails with
the invalid/expired result. -/
theorem C4_expired_validation_always_fails :
    (∀ (store : List AuthToken) (now : Nat) (token : String) (tk : AuthToken),
       find_auth_token_by_token store token = some tk → tk.expires_at < now →
       validate_auth_token store now token = none) ∧
    (∀ (config : Config) (store : List RefreshToken) (now : Nat)
       (fresh token : String) (tk : RefreshToken),
       find_refresh_token_by_token store token = some tk → tk.expires_at < now →
       validate_and_rotate_refresh_token config store now fresh token =
         (.invalid, store)) ∧
    (∀ (store : List EmailVerificationToken) (now : Nat) (token : String)
       (tk : EmailVerificationToken),
       find_email_verification_token store token = some tk → tk.expires_at < now →
       check_email_verification_token store now token = none) ∧
    (∀ (store : List EmailVerificationToken) (now : Nat) (token : String)
       (tk : EmailVerificationToken),
       find_email_verification_token store token = some tk → tk.expires_at < now →
       validate_email_verification_token store now token = (none, store)) ∧
    (∀ (store : List PasswordResetToken) (now : Nat) (token : String)
       (tk : PasswordResetToken),
       find_password_reset_token store token = some tk → tk.expires_at < now →
       validate_password_reset_token store now token = (none, store)) ∧
    (∀ (store : List EmailChangeRequest) (now : Nat) (token : String)
       (tk : EmailChangeRequest),
       find_email_change_request store token = some tk → tk.expires_at < now →
       validate_email_change_token store now token = (none, store)) := by
  refine ⟨?_, ?_, ?_, ?_, ?_, ?_⟩
  · intro store now token tk hf hexp
    unfold validate_auth_token
    rw [hf]
    simp [hexp]
  · intro config store now fresh token tk hf hexp
    unfold validate_and_rotate_refresh_token
    rw [hf]
    by_cases hr : tk.revoked <;> simp [hr, hexp]
  · intro store now token tk hf hexp
    unfold check_email_verification_token
    rw [hf]
    simp [hexp]
  · intro store now token tk hf hexp
    unfold validate_email_verification_token
    rw [hf]
    simp [hexp]
  · intro store now token tk hf hexp
    unfold validate_password_reset_token
    rw [hf]
    simp [hexp]
  · intro store now token tk hf hexp
    unfold validate_email_change_token
    rw [hf]
    simp [hexp]

/-- Witness for C4: each of the six validators rejects a concrete token that
expired at t = 10 when presented at t = 11. -/
theorem C4_expired_validation_always_fails_witness :
    validate_auth_token
      [{ token := "a", site_id := 1, user_id := 2, expires_at := 10,
         created_at := 0 }] 11 "a" = none ∧
    validate_and_rotate_refresh_token sampleConfig
      [{ token := "r", site_id := 1, user_id := 2, family_id := "F",
         expires_at := 10, created_at := 0, used_at := none, revoked := false }]
      11 "fresh" "r" =
      (.invalid,
       [{ token := "r", site_id := 1, user_id := 2, family_id := "F",
          expires_at := 10, created_at := 0, used_at := none,
          revoked := false }]) ∧
    check_email_verification_token
      [{ token := "e", site_id := 1, user_id := 2, expires_at := 10,
         created_at := 0 }] 11 "e" = none ∧
    validate_email_verification_token
      [{ token := "e", site_id := 1, user_id := 2, expires_at := 10,
         created_at := 0 }] 11 "e" =
      (none,
       [{ token := "e", site_id := 1, user_id := 2, expires_at := 10,
          created_at := 0 }]) ∧
    validate_password_reset_token
      [{ token := "p", site_id := 1, user_id := 2, expires_at := 10,
         created_at := 0, used := false }] 11 "p" =
      (none,
       [{ token := "p", site_id := 1, user_id := 2, expires_at := 10,
          created_at := 0, used := false }]) ∧
    validate_email_change_token
      [{ token := "c", site_id := 1, user_id := 2, new_email := "n@x",
         expires_at := 10, created_at := 0 }] 11 "c" =
      (none,
       [{ token := "c", site_id := 1, user_id := 2, new_email := "n@x",
          expires_at := 10, created_at := 0 }]) :=
  ⟨C4_expired_validation_always_fails.1 _ 11 "a"
     { token := "a", site_id := 1, user_id := 2, expires_at := 10,
       created_at := 0 } (by decide) (by decide),
   C4_expired_validation_always_fails.2.1 sampleConfig _ 11 "fresh" "r"
     { token := "r", site_id := 1, user_id := 2, family_id := "F",
       expires_at := 10, created_at := 0, used_at := none, revoked := false }
     (by decide) (by decide),
   C4_expired_validation_always_fails.2.2.1 _ 11 "e"
     { token := "e", site_id := 1, user_id := 2, expires_at := 10,
       created_at := 0 } (by decide) (by decide),
   C4_expired_validation_always_fails.2.2.2.1 _ 11 "e"
     { token := "e", site_id := 1, user_id := 2, expires_at := 10,
       created_at := 0 } (by decide) (by decide),
   C4_expired_validation_always_fails.2.2.2.2.1 _ 11 "p"
     { token := "p", site_id := 1, user_id := 2, expires_at := 10,
       created_at := 0, used := false } (by decide) (by decide),
   C4_expired_validation_always_fails.2.2.2.2.2 _ 11 "c"
     { token := "c", site_id := 1, user_id := 2, new_email := "n@x",
       expires_at := 10, created_at := 0 } (by decide) (by decide)⟩

/-- C10: the revoked and expired checks precede the reuse-detection check —
a revoked or expired refresh token, even one with `used_at` set and the
grace period long elapsed, yields the ordinary invalid result with the
store unchanged (no family revocation, no reuse-detected error). -/
theorem C10_revoked_expired_checked_before_reuse :
    ∀ (config : Config) (store : List RefreshToken) (now : Nat)
      (fresh token : String) (tk : RefreshToken),
      find_refresh_token_by_token store token = some tk →
      tk.revoked = true ∨ tk.expires_at < now →
      validate_and_rotate_refresh_token config store now fresh token =
        (.invalid, store) := by
  intro config store now fresh token tk hf hcase
  unfold validate_and_rotate_refresh_token
  rw [hf]
  rcases hcase with hr | hexp
  · simp [hr]
  · by_cases hr : tk.revoked <;> simp [hr, hexp]

/-- Witness for C10: a revoked token and an expired token, both with
`used_at = 100` presented at t = 1000 (far past the 10-second grace
period), each yield the plain invalid result with the store untouched. -/
theorem C10_revoked_expired_checked_before_reuse_witness :
    validate_and_rotate_refresh_token sampleConfig
      [{ token := "A", site_id := 1, user_id := 7, family_id := "F",
         expires_at := 2000, created_at := 50, used_at := some 100,
         revoked := true }] 1000 "fresh" "A" =
      (.invalid,
       [{ token := "A", site_id := 1, user_id := 7, family_id := "F",
          expires_at := 2000, created_at := 50, used_at := some 100,
          revoked := true }]) ∧
    validate_and_rotate_refresh_token sampleConfig
      [{ token := "A", site_id := 1, user_id := 7, family_id := "F",
         expires_at := 500, created_at := 50, used_at := some 100,
         revoked := false }] 1000 "fresh" "A" =
      (.invalid,
       [{ token := "A", site_id := 1, user_id := 7, family_id := "F",
          expires_at := 500, created_at := 50, used_at := some 100,
          revoked := false }]) :=
  ⟨C10_revoked_expired_checked_before_reuse sampleConfig _ 1000 "fresh" "A"
     { token := "A", site_id := 1, user_id := 7, family_id := "F",
       expires_at := 2000, created_at := 50, used_at := some 100,
       revoked := true } (by decide) (Or.inl (by decide)),
   C10_revoked_expired_checked_before_reuse sampleConfig _ 1000 "fresh" "A"
     { token := "A", site_id := 1, user_id := 7, family_id := "F",
       expires_at := 500, created_at := 50, used_at := some 100,
       revoked := false } (by decide) (Or.inr (by decide))⟩

/-- C1: a refresh token with `used_at` set that is found, not revoked and not
expired, presented with rotation enabled strictly after
`used_at + REFRESH_TOKEN_GRACE_PERIOD`, makes
`validate_and_rotate_refresh_token` revoke every token of its family and
fail with the distinct reuse-detected error (the raised `ValueError`); every
token of the family subsequently fails validation. -/
theorem C1_reuse_after_grace_revokes_family :
    ∀ (config : Config) (store : List RefreshToken) (now : Nat)
      (fresh token : String) (tk : RefreshToken) (used_at : Nat),
      find_refresh_token_by_token store token = some tk →
      tk.revoked = false →
      ¬ tk.expires_at < now →
      config.REFRESH_TOKEN_ROTATION = true →
      tk.used_at = some used_at →
      used_at + config.REFRESH_TOKEN_GRACE_PERIOD < now →
      validate_and_rotate_refresh_token config store now fresh token =
        (.reuseDetected, revoke_refresh_token_family store tk.family_id) ∧
      (∀ x ∈ revoke_refresh_token_family store tk.family_id,
         x.family_id = tk.family_id → x.revoked = true) ∧
      (∀ (now2 : Nat) (fresh2 token2 : String) (tk2 : RefreshToken),
         find_refresh_token_by_token
           (revoke_refresh_token_family store tk.family_id) token2 = some tk2 →
         tk2.family_id = tk.family_id →
         validate_and_rotate_refresh_token config
           (revoke_refresh_token_family store tk.family_id) now2 fresh2 token2 =
           (.invalid, revoke_refresh_token_family store tk.family_id)) := by
  intro config store now fresh token tk used_at hf hrev hexp hrot hused hgrace
  have hgt : ¬ now ≤ used_at + config.REFRESH_TOKEN_GRACE_PERIOD := by omega
  refine ⟨?_, revoke_family_mem_revoked store tk.family_id, ?_⟩
  · unfold validate_and_rotate_refresh_token
    rw [hf]
    simp [hrev, hexp, hrot, hused, hgt]
  · intro now2 fresh2 token2 tk2 hf2 hfam2
    exact validate_rotate_revoked_invalid config _ now2 fresh2 token2 tk2 hf2
      (revoke_family_mem_revoked store tk.family_id tk2
        (List.mem_of_find?_eq_some hf2) hfam2)

/-- Witness for C1: token "A" (family "F", used at t = 100) replayed at
t = 130, past the 10-second grace period, revokes both family members and
fails with the reuse-detected error; the never-replayed successor "B" then
also fails validation. -/
theorem C1_reuse_after_grace_revokes_family_witness :
    validate_and_rotate_refresh_token sampleConfig
      [sampleUsedToken, sampleSuccessorToken] 130 "fresh" "A" =
      (.reuseDetected,
       [{ sampleUsedToken with revoked := true },
        { sampleSuccessorToken with revoked := true }]) ∧
    validate_and_rotate_refresh_token sampleConfig
      [{ sampleUsedToken with revoked := true },
       { sampleSuccessorToken with revoked := true }] 200 "fresh2" "B" =
      (.invalid,
       [{ sampleUsedToken with revoked := true },
        { sampleSuccessorToken with revoked := true }]) := by
  have h := C1_reuse_after_grace_revokes_family sampleConfig
    [sampleUsedToken, sampleSuccessorToken] 130 "fresh" "A" sampleUsedToken 100
    (by decide) (by decide) (by decide) (by decide) (by decide) (by decide)
  have hrev : revoke_refresh_token_family
      [sampleUsedToken, sampleSuccessorToken] sampleUsedToken.family_id =
      [{ sampleUsedToken with revoked := true },
       { sampleSuccessorToken with revoked := true }] := by decide
  refine ⟨?_, ?_⟩
  · rw [← hrev]
    exact h.1
  · rw [← hrev]
    exact h.2.2 200 "fresh2" "B" { sampleSuccessorToken with revoked := true }
      (by rw [hrev]; decide) (by decide)

/-- C2: a found, unrevoked, unexpired refresh token with `used_at` already
set, presented with rotation enabled while `now ≤ used_at + grace_period`,
creates no new token (the store is unchanged); the latest family token
exists, and the call returns success carrying that latest token when it
differs from the presented one, and success carrying no new token
otherwise. -/
theorem C2_within_grace_returns_latest_without_creating :
    ∀ (config : Config) (store : List RefreshToken) (now : Nat)
      (fresh token : String) (tk : RefreshToken) (used_at : Nat),
      find_refresh_token_by_token store token = some tk →
      tk.revoked = false →
      ¬ tk.expires_at < now →
      config.REFRESH_TOKEN_ROTATION = true →
      tk.used_at = some used_at →
      now ≤ used_at + config.REFRESH_TOKEN_GRACE_PERIOD →
      (validate_and_rotate_refresh_token config store now fresh token).2 =
        store ∧
      (∃ latest,
         find_latest_refresh_token_in_family store tk.family_id = some latest) ∧
      (∀ latest,
         find_latest_refresh_token_in_family store tk.family_id = some latest →
         latest.token ≠ tk.token →
         (validate_and_rotate_refresh_token config store now fresh token).1 =
           .ok { user_id := latest.user_id, site_id := latest.site_id,
                 new_refresh_token := some latest }) ∧
      (∀ latest,
         find_latest_refresh_token_in_family store tk.family_id = some latest →
         latest.token = tk.token →
         (validate_and_rotate_refresh_token config store now fresh token).1 =
           .ok { user_id := tk.user_id, site_id := tk.site_id,
                 new_refresh_token := none }) := by
  intro config store now fresh token tk used_at hf hrev hexp hrot hused hle
  have hexists : ∃ latest,
      find_latest_refresh_token_in_family store tk.family_id = some latest := by
    have hmem : tk ∈ store := List.mem_of_find?_eq_some hf
    have hfil : tk ∈ store.filter (fun t => t.family_id == tk.family_id) :=
      List.mem_filter.mpr ⟨hmem, by simp⟩
    have hne : store.filter (fun t => t.family_id == tk.family_id) ≠ [] :=
      List.ne_nil_of_mem hfil
    unfold find_latest_refresh_token_in_family
    exact Option.isSome_iff_exists.mp (List.getLast?_isSome.mpr hne)
  obtain ⟨l0, hl0⟩ := hexists
  refine ⟨?_, ⟨l0, hl0⟩, ?_, ?_⟩
  · unfold validate_and_rotate_refresh_token
    rw [hf]
    by_cases hbne : (l0.token != tk.token) = true <;>
      simp [hrev, hexp, hrot, hused, hle, hl0, hbne]
  · intro latest hl hne
    unfold validate_and_rotate_refresh_token
    rw [hf]
    have hbne : (latest.token != tk.token) = true := bne_iff_ne.mpr hne
    simp [hrev, hexp, hrot, hused, hle, hl, hbne]
  · intro latest hl heq
    unfold validate_and_rotate_refresh_token
    rw [hf]
    simp [hrev, hexp, hrot, hused, hle, hl, heq]

/-- Witness for C2: token "A" (family "F", rotated at t = 100 producing
token "B") replayed at t = 105, within the 10-second grace period, leaves
the store unchanged and returns success carrying the already-issued token
"B". -/
theorem C2_within_grace_returns_latest_without_creating_witness :
    (validate_and_rotate_refresh_token sampleConfig
       [sampleUsedToken, sampleSuccessorToken] 105 "fresh" "A").2 =
      [sampleUsedToken, sampleSuccessorToken] ∧
    (validate_and_rotate_refresh_token sampleConfig
       [sampleUsedToken, sampleSuccessorToken] 105 "fresh" "A").1 =
      .ok { user_id := 7, site_id := 1,
            new_refresh_token := some sampleSuccessorToken } := by
  have h := C2_within_grace_returns_latest_without_creating sampleConfig
    [sampleUsedToken, sampleSuccessorToken] 105 "fresh" "A" sampleUsedToken 100
    (by decide) (by decide) (by decide) (by decide) (by decide) (by decide)
  refine ⟨h.1, ?_⟩
  have h3 := h.2.2.1 sampleSuccessorToken (by decide) (by decide)
  exact h3

/-- C3: `create_refresh_token` (fresh family) followed, while the token is
unexpired and rotation is enabled, by `validate_and_rotate_refresh_token`
on the fresh token succeeds: it marks the presented token's `used_at` with
the current time and returns — along with the subject's `user_id` and
`site_id` — a newly persisted refresh token whose `family_id` equals the
original token's `family_id`. -/
theorem C3_create_then_rotate_keeps_family :
    ∀ (config : Config) (s0 : List RefreshToken) (t0 : Nat)
      (tok0 fam0 : String) (site_id user_id t1 : Nat) (tok1 : String),
      (∀ x ∈ s0, x.token ≠ tok0) →
      config.REFRESH_TOKEN_ROTATION = true →
      ¬ (create_refresh_token config s0 t0 tok0 fam0 site_id user_id
           none).1.expires_at < t1 →
      validate_and_rotate_refresh_token config
          (create_refresh_token config s0 t0 tok0 fam0 site_id user_id none).2
          t1 tok1
          (create_refresh_token config s0 t0 tok0 fam0 site_id user_id
            none).1.token =
        (.ok { user_id := user_id, site_id := site_id,
               new_refresh_token := some
                 { token := tok1, site_id := site_id, user_id := user_id,
                   family_id := fam0,
                   expires_at := t1 + config.REFRESH_TOKEN_EXPIRATION,
                   created_at := t1, used_at := none, revoked := false } },
         mark_refresh_token_used
             (create_refresh_token config s0 t0 tok0 fam0 site_id user_id
               none).2
             (create_refresh_token config s0 t0 tok0 fam0 site_id user_id
               none).1.token t1 ++
           [{ token := tok1, site_id := site_id, user_id := user_id,
              family_id := fam0,
              expires_at := t1 + config.REFRESH_TOKEN_EXPIRATION,
              created_at := t1, used_at := none, revoked := false }]) ∧
      ({ token := tok1, site_id := site_id, user_id := user_id,
         family_id := fam0, expires_at := t1 + config.REFRESH_TOKEN_EXPIRATION,
         created_at := t1, used_at := none,
         revoked := false } : RefreshToken).family_id =
        (create_refresh_token config s0 t0 tok0 fam0 site_id user_id
          none).1.family_id ∧
      find_refresh_token_by_token
          (validate_and_rotate_refresh_token config
            (create_refresh_token config s0 t0 tok0 fam0 site_id user_id
              none).2 t1 tok1
            (create_refresh_token config s0 t0 tok0 fam0 site_id user_id
              none).1.token).2
          (create_refresh_token config s0 t0 tok0 fam0 site_id user_id
            none).1.token =
        some { (create_refresh_token config s0 t0 tok0 fam0 site_id user_id
                 none).1 with used_at := some t1 } := by
  intro config s0 t0 tok0 fam0 site_id user_id t1 tok1 huniq hrot hexp
  have hval := rotate_fresh_token config s0
    { token := tok0, site_id := site_id, user_id := user_id,
      family_id := fam0, expires_at := t0 + config.REFRESH_TOKEN_EXPIRATION,
      created_at := t0, used_at := none, revoked := false }
    t1 tok1 huniq rfl rfl hrot hexp
  refine ⟨hval, rfl, ?_⟩
  show find_refresh_token_by_token
      (validate_and_rotate_refresh_token config
        (s0 ++ [{ token := tok0, site_id := site_id, user_id := user_id,
                  family_id := fam0,
                  expires_at := t0 + config.REFRESH_TOKEN_EXPIRATION,
                  created_at := t0, used_at := none, revoked := false }])
        t1 tok1 tok0).2 tok0 = _
  rw [hval]
  exact find_after_mark_and_append s0 _ _ t1 huniq

/-- Witness for C3: creating token "A" (family "F") for user 7 of site 1 at
t = 50 and rotating it at t = 100 with fresh string "B" yields success with
the new token "B" in family "F", the store holding "A" marked used at 100
followed by "B". -/
theorem C3_create_then_rotate_keeps_family_witness :
    validate_and_rotate_refresh_token sampleConfig
        (create_refresh_token sampleConfig [] 50 "A" "F" 1 7 none).2 100 "B"
        (create_refresh_token sampleConfig [] 50 "A" "F" 1 7 none).1.token =
      (.ok { user_id := 7, site_id := 1,
             new_refresh_token := some
               { token := "B", site_id := 1, user_id := 7, family_id := "F",
                 expires_at := 86500, created_at := 100, used_at := none,
                 revoked := false } },
       [{ token := "A", site_id := 1, user_id := 7, family_id := "F",
          expires_at := 86450, created_at := 50, used_at := some 100,
          revoked := false },
        { token := "B", site_id := 1, user_id := 7, family_id := "F",
          expires_at := 86500, created_at := 100, used_at := none,
          revoked := false }]) ∧
    find_refresh_token_by_token
        (validate_and_rotate_refresh_token sampleConfig
          (create_refresh_token sampleConfig [] 50 "A" "F" 1 7 none).2 100 "B"
          (create_refresh_token sampleConfig [] 50 "A" "F" 1 7 none).1.token).2
        "A" =
      some { token := "A", site_id := 1, user_id := 7, family_id := "F",
             expires_at := 86450, created_at := 50, used_at := some 100,
             revoked := false } := by
  have h := C3_create_then_rotate_keeps_family sampleConfig [] 50 "A" "F" 1 7
    100 "B" (by simp) (by decide) (by decide)
  exact ⟨h.1, h.2.2⟩

/-- C5: one-time use — after a first successful destructive validation of an
email-verification, email-change, or password-reset token, a second
validation with the same token string fails: the first two kinds are
deleted on success, the password-reset token is marked `used` and
thereafter rejected. -/
theorem C5_one_time_use_second_validation_fails :
    (∀ (store : List EmailVerificationToken) (now : Nat) (token : String)
       (uid now2 : Nat),
       (validate_email_verification_token store now token).1 = some uid →
       find_email_verification_token
         (validate_email_verification_token store now token).2 token = none ∧
       (validate_email_verification_token
         (validate_email_verification_token store now token).2 now2
         token).1 = none) ∧
    (∀ (store : List EmailChangeRequest) (now : Nat) (token : String)
       (req : EmailChangeRequest) (now2 : Nat),
       (validate_email_change_token store now token).1 = some req →
       find_email_change_request
         (validate_email_change_token store now token).2 token = none ∧
       (validate_email_change_token
         (validate_email_change_token store now token).2 now2 token).1 =
         none) ∧
    (∀ (store : List PasswordResetToken) (now : Nat) (token : String)
       (uid now2 : Nat),
       (validate_password_reset_token store now token).1 = some uid →
       (validate_password_reset_token
         (validate_password_reset_token store now token).2 now2 token).1 =
         none) := by
  refine ⟨?_, ?_, ?_⟩
  · intro store now token uid now2 hsucc
    unfold validate_email_verification_token at hsucc ⊢
    cases hfind : find_email_verification_token store token with
    | none => rw [hfind] at hsucc; simp at hsucc
    | some et =>
      rw [hfind] at hsucc
      by_cases hexp : et.expires_at < now
      · simp [hexp] at hsucc
      · have hfind2 : find_email_verification_token
            (delete_email_verification_token store token) token = none :=
          find?_token_filter_ne EmailVerificationToken.token store token
        simp [hexp, hfind2]
  · intro store now token req now2 hsucc
    unfold validate_email_change_token at hsucc ⊢
    cases hfind : find_email_change_request store token with
    | none => rw [hfind] at hsucc; simp at hsucc
    | some cr =>
      rw [hfind] at hsucc
      by_cases hexp : cr.expires_at < now
      · simp [hexp] at hsucc
      · have hfind2 : find_email_change_request
            (delete_email_change_request store token) token = none :=
          find?_token_filter_ne EmailChangeRequest.token store token
        simp [hexp, hfind2]
  · intro store now token uid now2 hsucc
    unfold validate_password_reset_token at hsucc ⊢
    cases hfind : find_password_reset_token store token with
    | none => rw [hfind] at hsucc; simp at hsucc
    | some rt =>
      rw [hfind] at hsucc
      by_cases hcond : (rt.used || decide (rt.expires_at < now)) = true
      · simp only [if_pos hcond] at hsucc; simp at hsucc
      · have hfind' : store.find? (fun t => t.token == token) = some rt := hfind
        have htok0 := List.find?_some hfind'
        have htok : (rt.token == token) = true := htok0
        have hfind2 : find_password_reset_token
            (mark_password_reset_token_used store token) token =
            some { rt with used := true } := by
          rw [find_password_reset_after_mark]
          unfold find_password_reset_token
          rw [hfind']
          simp [htok]
          intro hne
          exact absurd (beq_iff_eq.mp htok) hne
        simp [hcond, hfind2]

/-- Witness for C5: each of the three token kinds, consumed successfully at
t = 10, is rejected on a second validation at t = 20. -/
theorem C5_one_time_use_second_validation_fails_witness :
    (validate_email_verification_token
      (validate_email_verification_token
        [{ token := "e", site_id := 1, user_id := 2, expires_at := 100,
           created_at := 0 }] 10 "e").2 20 "e").1 = none ∧
    (validate_email_change_token
      (validate_email_change_token
        [{ token := "c", site_id := 1, user_id := 2, new_email := "n@x",
           expires_at := 100, created_at := 0 }] 10 "c").2 20 "c").1 = none ∧
    (validate_password_reset_token
      (validate_password_reset_token
        [{ token := "p", site_id := 1, user_id := 2, expires_at := 100,
           created_at := 0, used := false }] 10 "p").2 20 "p").1 = none :=
  ⟨(C5_one_time_use_second_validation_fails.1
      [{ token := "e", site_id := 1, user_id := 2, expires_at := 100,
         created_at := 0 }] 10 "e" 2 20 (by decide)).2,
   (C5_one_time_use_second_validation_fails.2.1
      [{ token := "c", site_id := 1, user_id := 2, new_email := "n@x",
         expires_at := 100, created_at := 0 }] 10 "c"
      { token := "c", site_id := 1, user_id := 2, new_email := "n@x",
        expires_at := 100, created_at := 0 } 20 (by decide)).2,
   C5_one_time_use_second_validation_fails.2.2
     [{ token := "p", site_id := 1, user_id := 2, expires_at := 100,
        created_at := 0, used := false }] 10 "p" 2 20 (by decide)⟩

/-- C6 counterexample: `cleanup_expired_tokens` does delete a password-reset
token row — a store holding one password-reset row expired at t = 5, swept
at t = 10, comes back with that row removed, refuting "no operation of the
lifecycle engine, including cleanup_expired_tokens, deletes a
password-reset token row". -/
theorem C6_cleanup_deletes_expired_password_reset_row :
    (cleanup_expired_tokens
      { auth_tokens := [], refresh_tokens := [],
        email_verification_tokens := [],
        password_reset_tokens :=
          [{ token := "p", site_id := 1, user_id := 2, expires_at := 5,
             created_at := 0, used := true }],
        email_change_requests := [] } 10).password_reset_tokens = [] := by
  decide

/-- C6 (amended): password-reset validation never deletes a row — on success
it only marks the row `used`, and it always preserves the number of rows —
while `cleanup_expired_tokens` deletes exactly the password-reset rows past
`expires_at`: every unexpired row survives the sweep, and every survivor
was an unexpired row of the original store. -/
theorem C6_password_reset_rows_survive_validation :
    (∀ (store : List PasswordResetToken) (now : Nat) (token : String),
       (validate_password_reset_token store now token).2 = store ∨
       (validate_password_reset_token store now token).2 =
         mark_password_reset_token_used store token) ∧
    (∀ (store : List PasswordResetToken) (now : Nat) (token : String),
       ((validate_password_reset_token store now token).2).length =
         store.length) ∧
    (∀ (stores : Stores) (now : Nat) (p : PasswordResetToken),
       p ∈ stores.password_reset_tokens → ¬ p.expires_at < now →
       p ∈ (cleanup_expired_tokens stores now).password_reset_tokens) ∧
    (∀ (stores : Stores) (now : Nat) (p : PasswordResetToken),
       p ∈ (cleanup_expired_tokens stores now).password_reset_tokens →
       p ∈ stores.password_reset_tokens ∧ ¬ p.expires_at < now) := by
  have hshape : ∀ (store : List PasswordResetToken) (now : Nat)
      (token : String),
      (validate_password_reset_token store now token).2 = store ∨
      (validate_password_reset_token store now token).2 =
        mark_password_reset_token_used store token := by
    intro store now token
    unfold validate_password_reset_token
    cases hfind : find_password_reset_token store token with
    | none => exact Or.inl rfl
    | some rt =>
      by_cases hcond : (rt.used || decide (rt.expires_at < now)) = true
      · simp only [if_pos hcond]
        exact Or.inl trivial
      · simp only [if_neg hcond]
        exact Or.inr trivial
  refine ⟨hshape, ?_, ?_, ?_⟩
  · intro store now token
    rcases hshape store now token with h | h <;> rw [h]
    unfold mark_password_reset_token_used
    exact List.length_map store _
  · intro stores now p hmem hexp
    unfold cleanup_expired_tokens delete_expired_password_reset_tokens
    exact List.mem_filter.mpr ⟨hmem, by simpa using hexp⟩
  · intro stores now p hmem
    unfold cleanup_expired_tokens delete_expired_password_reset_tokens at hmem
    have := List.mem_filter.mp hmem
    exact ⟨this.1, by simpa using this.2⟩

/-- Witness for C6 (amended): a successful validation at t = 10 keeps the
single password-reset row (marked used), and the sweep at t = 10 keeps an
unexpired row. -/
theorem C6_password_reset_rows_survive_validation_witness :
    ((validate_password_reset_token
       [{ token := "p", site_id := 1, user_id := 2, expires_at := 100,
          created_at := 0, used := false }] 10 "p").2).length = 1 ∧
    ({ token := "p", site_id := 1, user_id := 2, expires_at := 100,
       created_at := 0, used := true } : PasswordResetToken) ∈
      (cleanup_expired_tokens
        { auth_tokens := [], refresh_tokens := [],
          email_verification_tokens := [],
          password_reset_tokens :=
            [{ token := "p", site_id := 1, user_id := 2, expires_at := 100,
               created_at := 0, used := true }],
          email_change_requests := [] } 10).password_reset_tokens :=
  ⟨C6_password_reset_rows_survive_validation.2.1
     [{ token := "p", site_id := 1, user_id := 2, expires_at := 100,
        created_at := 0, used := false }] 10 "p",
   C6_password_reset_rows_survive_validation.2.2.1
     { auth_tokens := [], refresh_tokens := [],
       email_verification_tokens := [],
       password_reset_tokens :=
         [{ token := "p", site_id := 1, user_id := 2, expires_at := 100,
            created_at := 0, used := true }],
       email_change_requests := [] } 10
     { token := "p", site_id := 1, user_id := 2, expires_at := 100,
       created_at := 0, used := true } (by decide) (by decide)⟩

/-- C7: `compute_signature` computes, for every secret, timestamp and body,
the hex-encoded HMAC-SHA256 digest, keyed by the secret, of the literal
string `"{timestamp}.{body}"` (determinism is intrinsic: it is a pure
function of its three arguments); the embedding is checked against an
independently computed HMAC-SHA256 value on a concrete input. -/
theorem C7_compute_signature_is_hmac_sha256 :
    (∀ (secret : String) (timestamp : Nat) (body : String),
       compute_signature secret timestamp body =
         hmacSha256Hex secret (toString timestamp ++ "." ++ body)) ∧
    compute_signature "whsec_demo" 1700000000
        "\x7b\"event_type\":\"user.verified\",\"site_id\":3\x7d" =
      "0a4648841dc0291901126fadf105d2beae6e43dc3e101ca0971282497c170591" := by
  refine ⟨fun secret timestamp body => rfl, ?_⟩
  decide

/-- C8: every invocation of the webhook delivery execution appends exactly
one audit row; its `success` flag is true iff the HTTP response status was
2xx (false on any network failure, which is caught rather than
propagated); its `response_status` is the status code when a response was
received and absent otherwise; and its recorded response body has at most
1000 characters. -/
theorem C8_delivery_writes_one_bounded_audit_row :
    ∀ (site : Site) (payload : WebhookPayload) (http : HttpOutcome)
      (now : Nat) (events : List WebhookEvent),
      (deliver_webhook site payload http now events).2 =
        events ++ [(deliver_webhook site payload http now events).1] ∧
      ((deliver_webhook site payload http now events).1.success = true ↔
        ∃ status body, http = .response status body ∧
          200 ≤ status ∧ status < 300) ∧
      (∀ status body, http = .response status body →
        (deliver_webhook site payload http now events).1.response_status =
          some status) ∧
      (∀ msg, http = .networkError msg →
        (deliver_webhook site payload http now events).1.response_status =
          none) ∧
      (∀ body,
        (deliver_webhook site payload http now events).1.response_body =
          some body → body.length ≤ 1000) := by
  intro site payload http now events
  cases http with
  | response status body =>
    refine ⟨rfl, ?_, ?_, ?_, ?_⟩
    · show (decide (200 ≤ status) && decide (status < 300)) = true ↔ _
      rw [Bool.and_eq_true, decide_eq_true_iff, decide_eq_true_iff]
      constructor
      · rintro ⟨h1, h2⟩
        exact ⟨status, body, rfl, h1, h2⟩
      · rintro ⟨s2, b2, heq, h1, h2⟩
        injection heq with h3 h4
        subst h3
        exact ⟨h1, h2⟩
    · intro s2 b2 heq
      injection heq with h3 h4
      subst h3
      rfl
    · intro msg heq
      exact nomatch heq
    · intro b hb
      injection hb with hb2
      rw [← hb2]
      exact strTruncate_length_le body 1000
  | networkError msg =>
    refine ⟨rfl, ?_, ?_, ?_, ?_⟩
    · constructor
      · intro h
        exact absurd h (by simp [deliver_webhook])
      · rintro ⟨s2, b2, heq, h1, h2⟩
        exact nomatch heq
    · intro s2 b2 heq
      exact nomatch heq
    · intro m heq
      rfl
    · intro b hb
      injection hb with hb2
      rw [← hb2]
      exact strTruncate_length_le msg 1000

/-- Witness for C8: a delivery that got a 200 response appends exactly its
own audit row, marked successful with status 200. -/
theorem C8_delivery_writes_one_bounded_audit_row_witness :
    (deliver_webhook sampleSite samplePayload (.response 200 "ok") 5 []).2 =
      [(deliver_webhook sampleSite samplePayload
          (.response 200 "ok") 5 []).1] ∧
    (deliver_webhook sampleSite samplePayload
        (.response 200 "ok") 5 []).1.success = true ∧
    (deliver_webhook sampleSite samplePayload
        (.response 200 "ok") 5 []).1.response_status = some 200 :=
  ⟨(C8_delivery_writes_one_bounded_audit_row sampleSite samplePayload
      (.response 200 "ok") 5 []).1,
   (C8_delivery_writes_one_bounded_audit_row sampleSite samplePayload
      (.response 200 "ok") 5 []).2.1.mpr
     ⟨200, "ok", rfl, by decide, by decide⟩,
   (C8_delivery_writes_one_bounded_audit_row sampleSite samplePayload
      (.response 200 "ok") 5 []).2.2.1 200 "ok" rfl⟩

/-- C9: `send_webhook` is a no-op — no network call, no audit row, state
unchanged — whenever the site's `webhook_url` or `webhook_secret` is unset
or empty. -/
theorem C9_send_webhook_noop_without_url_or_secret :
    ∀ (site : Site) (payload : WebhookPayload) (http : HttpOutcome)
      (now : Nat) (events : List WebhookEvent),
      optStrFalsy site.webhook_url = true ∨
        optStrFalsy site.webhook_secret = true →
      send_webhook site payload http now events = (none, events) := by
  intro site payload http now events hcase
  unfold send_webhook
  rcases hcase with h | h <;> simp [h]

/-- Witness for C9: a site with no webhook URL, and a site with an empty
webhook secret, each cause `send_webhook` to perform no call and leave the
audit log unchanged. -/
theorem C9_send_webhook_noop_without_url_or_secret_witness :
    send_webhook sampleSiteNoUrl samplePayload (.response 200 "ok") 5 [] =
      (none, []) ∧
    send_webhook sampleSiteEmptySecret samplePayload
      (.response 200 "ok") 5 [] = (none, []) :=
  ⟨C9_send_webhook_noop_without_url_or_secret sampleSiteNoUrl samplePayload
     (.response 200 "ok") 5 [] (Or.inl (by decide)),
   C9_send_webhook_noop_without_url_or_secret sampleSiteEmptySecret
     samplePayload (.response 200 "ok") 5 [] (Or.inr (by decide))⟩

end Aegis
